import Mathlib

/-!
Verification of the force-quit utility (`claude_forcequit.py`).

The development shallowly embeds the two components the specification
describes: the classifier `is_essential_process` and the terminator loop of
`force_quit_applications`, together with the enumeration parser
`get_running_applications`.  External OS calls (`osascript`, `pkill`,
Tk widget updates) are modelled by explicit outcome values: each call either
returns an exit code (which the script ignores) or raises an exception.
-/

/-- Python `str.lower()` as used by the script (ASCII case folding,
character by character). -/
def pyLower (s : String) : String :=
  String.mk (s.toList.map Char.toLower)

/-- Scan implementing the Python substring test `n in h` on character
lists: true iff `n` occurs as a contiguous infix of `h`. -/
def containsSub (n : List Char) : List Char → Bool
  | [] => n.isEmpty
  | c :: t => n.isPrefixOf (c :: t) || containsSub n t

/-- Python `needle in haystack` for strings. -/
def pyIn (needle haystack : String) : Bool :=
  containsSub needle.toList haystack.toList

/-- The `essential_processes` set populated in `ClaudeForceQUIT.__init__`,
in source order. -/
def essential_processes : List String :=
  ["kernel_task", "launchd", "kextcookied", "UserEventAgent",
   "com.apple.WebKit", "systemuiserver", "Dock", "Finder",
   "WindowServer", "loginwindow", "cfprefsd", "distnoted",
   "coreaudiod", "bluetoothd", "WiFiAgent", "airportd",
   "networkd", "configd", "mDNSResponder", "syslogd",
   "Claude Code", "Terminal", "iTerm2"]

/-- The secondary OS-keyword list hard-coded inside `is_essential_process`. -/
def os_keywords : List String :=
  ["system", "kernel", "apple", "com.apple", "security",
   "audio", "bluetooth", "wifi", "network", "login",
   "window", "dock", "finder", "spotlight", "notification"]

/-- `is_essential_process` from the script: lower-case the name, return true
if any essential pattern (lower-cased) is a substring, or any OS keyword is
a substring; otherwise false. -/
def is_essential_process (process_name : String) : Bool :=
  let process_lower := pyLower process_name
  essential_processes.any (fun essential => pyIn (pyLower essential) process_lower)
    || os_keywords.any (fun keyword => pyIn keyword process_lower)

/-- Outcome of one external `subprocess.run` call: the call returns with an
exit code (the script ignores the code), or raises an exception. -/
inductive CallOutcome where
  | ret (code : Int)
  | raise
deriving DecidableEq

/-- Outcome of the `osascript` enumeration call in
`get_running_applications`: return code plus captured stdout, or a raised
exception. -/
inductive EnumResult where
  | ret (code : Int) (stdout : String)
  | raise
deriving DecidableEq

/-- The external environment of one terminator run: the result of the
enumeration call, and per-name outcomes of the graceful-quit (`osascript
... to quit`) and forceful-kill (`pkill -f`) calls. -/
structure Env where
  enumerate : EnumResult
  graceful : String → CallOutcome
  kill : String → CallOutcome

/-- Python `str.strip()` with no argument: remove whitespace from both
ends. -/
def pyStripWs (s : String) : String :=
  String.mk
    (((s.toList.dropWhile Char.isWhitespace).reverse.dropWhile
      Char.isWhitespace).reverse)

/-- Python `str.strip(chars)`: remove any character of `chars` from both
ends. -/
def pyStrip (chars : List Char) (s : String) : String :=
  String.mk
    (((s.toList.dropWhile (fun c => chars.contains c)).reverse.dropWhile
      (fun c => chars.contains c)).reverse)

/-- Python `str.split(',')` on a character list: cut at every comma; the
empty input yields one empty field. -/
def pySplitComma : List Char → List (List Char)
  | [] => [[]]
  | c :: t =>
    if c = ',' then [] :: pySplitComma t
    else
      match pySplitComma t with
      | [] => [[c]]
      | h :: r => (c :: h) :: r

/-- `get_running_applications` from the script, as a function of the
enumeration call's outcome: on exit code 0 with non-empty stripped output,
strip surrounding braces, split on commas and strip whitespace and quotes
from each element; otherwise (non-zero exit, empty output, or exception)
return the empty list. -/
def get_running_applications (r : EnumResult) : List String :=
  match r with
  | EnumResult.raise => []
  | EnumResult.ret code stdout =>
    if code = 0 then
      let app_list := pyStripWs stdout
      if app_list ≠ "" then
        (pySplitComma (pyStrip ['\x7b', '\x7d'] app_list).toList).map
          (fun app => pyStrip ['\"'] (pyStripWs (String.mk app)))
      else []
    else []

/-- External actions the per-application branch can attempt, in order. -/
inductive ExtAction where
  | graceful_quit (app : String)
  | force_kill (app : String)
deriving DecidableEq

/-- Trace and counter increments produced by one iteration of the loop in
`force_quit_applications`. -/
structure AppResult where
  trace : List ExtAction
  dq : Nat
  dp : Nat
deriving DecidableEq

/-- One iteration of the `for app in running_apps` loop: an essential name
only increments `preserved_count`; a non-essential name triggers the
graceful-quit call, then — only if that call returned — the forceful-kill
call, then — only if that also returned — the `quit_count` increment.  An
exception from either call is caught by the inner `except` clause, which
skips the rest of the iteration's body. -/
def processApp (env : Env) (app : String) : AppResult :=
  if is_essential_process app = false then
    match env.graceful app with
    | CallOutcome.raise => ⟨[ExtAction.graceful_quit app], 0, 0⟩
    | CallOutcome.ret _ =>
      match env.kill app with
      | CallOutcome.raise =>
        ⟨[ExtAction.graceful_quit app, ExtAction.force_kill app], 0, 0⟩
      | CallOutcome.ret _ =>
        ⟨[ExtAction.graceful_quit app, ExtAction.force_kill app], 1, 0⟩
  else ⟨[], 0, 1⟩

/-- Counter update of one loop iteration. -/
def quitStep (env : Env) (acc : Nat × Nat) (app : String) : Nat × Nat :=
  (acc.1 + (processApp env app).dq, acc.2 + (processApp env app).dp)

/-- The tally `(quit_count, preserved_count)` computed by the loop of
`force_quit_applications`, starting from `(0, 0)`. -/
def runTally (env : Env) (apps : List String) : Nat × Nat :=
  apps.foldl (quitStep env) (0, 0)

/-- A full terminator run: enumerate, then loop over the result. -/
def force_quit_run (env : Env) : Nat × Nat :=
  runTally env (get_running_applications env.enumerate)

/-- Tk button states used by the script: `normal` (clickable) and
`disabled`. -/
inductive BtnState where
  | normal
  | disabled
deriving DecidableEq

/-- The GUI state `force_quit_applications` mutates: the trigger button's
state, and whether the generic error dialog has been shown. -/
structure GuiState where
  button : BtnState
  errorShown : Bool
deriving DecidableEq

/-- The statements inside the outer `try` of `force_quit_applications` at
which an unexpected exception can surface (the per-application calls are
guarded by the inner `try` and cannot reach the outer handler). -/
inductive RunStep where
  | askConfirm
  | disableBtn
  | updateRoot
  | enableBtn
  | showInfo
deriving DecidableEq

/-- The outer `except` clause of `force_quit_applications`: re-enable the
button and show the error dialog. -/
def handle_error (s : GuiState) : GuiState :=
  { s with button := BtnState.normal, errorShown := true }

/-- The body of the outer `try` of `force_quit_applications`, with an
oracle `raises` saying which of its statements raises an unexpected
exception (a raising statement takes effect as `Except.error` with the GUI
state reached so far).  Mirrors the source order: confirmation dialog,
early return on refusal, disable button, `root.update`, enumeration and
quit loop, re-enable button, result dialog. -/
def try_body (env : Env) (confirm : Bool) (raises : RunStep → Bool)
    (s0 : GuiState) : Except GuiState (GuiState × Option (Nat × Nat)) :=
  if raises RunStep.askConfirm then Except.error s0
  else if confirm = false then Except.ok (s0, none)
  else if raises RunStep.disableBtn then Except.error s0
  else
    let s1 : GuiState := { s0 with button := BtnState.disabled }
    if raises RunStep.updateRoot then Except.error s1
    else
      let tally := runTally env (get_running_applications env.enumerate)
      if raises RunStep.enableBtn then Except.error s1
      else
        let s2 : GuiState := { s1 with button := BtnState.normal }
        if raises RunStep.showInfo then Except.error s2
        else Except.ok (s2, some tally)

/-- `force_quit_applications`: run the `try` body; on an unexpected
exception fall into the `except` clause. -/
def force_quit_applications (env : Env) (confirm : Bool)
    (raises : RunStep → Bool) (s0 : GuiState) : GuiState × Option (Nat × Nat) :=
  match try_body env confirm raises s0 with
  | Except.ok (s, t) => (s, t)
  | Except.error s => (handle_error s, none)

/-- GUI state at the moment the run is triggered: the button is clickable
and no error dialog is showing. -/
def initGui : GuiState := ⟨BtnState.normal, false⟩

/-- Test environment in which every external call completes (exit code 0). -/
def envOk : Env :=
  ⟨EnumResult.ret 0 "", fun _ => CallOutcome.ret 0, fun _ => CallOutcome.ret 0⟩

/-- Test environment in which every graceful-quit call raises (as
`subprocess.run` does on `TimeoutExpired`) while kill calls complete. -/
def envGr : Env :=
  ⟨EnumResult.ret 0 "", fun _ => CallOutcome.raise, fun _ => CallOutcome.ret 0⟩

/-- Test environment in which the enumeration call exits with code 1. -/
def envFail : Env :=
  ⟨EnumResult.ret 1 "\x7bFinder\x7d", fun _ => CallOutcome.ret 0,
   fun _ => CallOutcome.ret 0⟩

theorem containsSub_iff (n : List Char) :
    ∀ h : List Char, containsSub n h = true ↔ n <:+: h
  | [] => by
    simp [containsSub, List.isEmpty_iff]
  | c :: t => by
    rw [containsSub]
    simp [containsSub_iff n t, List.infix_cons_iff]

theorem pyLower_toList (s : String) :
    (pyLower s).toList = s.toList.map Char.toLower := rfl

theorem pyIn_iff (needle haystack : String) :
    pyIn needle haystack = true ↔ needle.toList <:+: haystack.toList :=
  containsSub_iff _ _

/-- C1: a process name containing (case-insensitively) any pattern of the
`essential_processes` list is classified essential.  "Contains
case-insensitively" is stated mathematically: some contiguous infix of the
name lower-cases to the same characters as the pattern. -/
theorem is_essential_of_pattern (name p : String)
    (hp : p ∈ essential_processes) (w : List Char)
    (hw : w <:+: name.toList)
    (hcase : w.map Char.toLower = p.toList.map Char.toLower) :
    is_essential_process name = true := by
  have hin : pyIn (pyLower p) (pyLower name) = true := by
    rw [pyIn_iff, pyLower_toList, pyLower_toList, ← hcase]
    exact hw.map Char.toLower
  unfold is_essential_process
  simp only [Bool.or_eq_true, List.any_eq_true]
  exact Or.inl ⟨p, hp, hin⟩

theorem is_essential_of_pattern_witness :
    "Finder" ∈ essential_processes
    ∧ ("FINDer".toList <:+: "xFINDery".toList)
    ∧ ("FINDer".toList.map Char.toLower = "Finder".toList.map Char.toLower)
    ∧ is_essential_process "xFINDery" = true :=
  ⟨by decide, ⟨['x'], ['y'], by decide⟩, by decide,
    is_essential_of_pattern "xFINDery" "Finder" (by decide)
      "FINDer".toList ⟨['x'], ['y'], by decide⟩ (by decide)⟩

/-- C2: a process name containing (in any case) any token of the secondary
OS-keyword list is classified essential: some contiguous infix of the name
lower-cases to exactly the keyword. -/
theorem is_essential_of_keyword (name k : String)
    (hk : k ∈ os_keywords) (w : List Char)
    (hw : w <:+: name.toList)
    (hcase : w.map Char.toLower = k.toList) :
    is_essential_process name = true := by
  have hin : pyIn k (pyLower name) = true := by
    rw [pyIn_iff, pyLower_toList, ← hcase]
    exact hw.map Char.toLower
  unfold is_essential_process
  simp only [Bool.or_eq_true, List.any_eq_true]
  exact Or.inr ⟨k, hk, hin⟩

theorem is_essential_of_keyword_witness :
    "dock" ∈ os_keywords
    ∧ ("DocK".toList <:+: "MyDocKyard".toList)
    ∧ ("DocK".toList.map Char.toLower = "dock".toList)
    ∧ is_essential_process "MyDocKyard" = true :=
  ⟨by decide, ⟨['M', 'y'], "yard".toList, by decide⟩, by decide,
    is_essential_of_keyword "MyDocKyard" "dock" (by decide)
      "DocK".toList ⟨['M', 'y'], "yard".toList, by decide⟩ (by decide)⟩

/-- C3: a process name in which no essential pattern and no OS keyword
occurs case-insensitively is classified non-essential. -/
theorem not_essential_of_no_match (name : String)
    (h1 : ∀ p ∈ essential_processes,
      ¬ ((pyLower p).toList <:+: (pyLower name).toList))
    (h2 : ∀ k ∈ os_keywords, ¬ (k.toList <:+: (pyLower name).toList)) :
    is_essential_process name = false := by
  unfold is_essential_process
  simp only [Bool.or_eq_false_iff, List.any_eq_false]
  constructor
  · intro p hp
    simp only [Bool.not_eq_true, ← Bool.not_eq_true, pyIn_iff]
    exact h1 p hp
  · intro k hk
    simp only [Bool.not_eq_true, ← Bool.not_eq_true, pyIn_iff]
    exact h2 k hk

theorem not_essential_of_no_match_witness :
    is_essential_process "TextEditor" = false
    ∧ is_essential_process "" = false :=
  ⟨not_essential_of_no_match "TextEditor" (by decide) (by decide),
   not_essential_of_no_match "" (by decide) (by decide)⟩

/-- C9: the classifier is invariant under letter-case changes of its input:
two names whose characters agree up to case (equal images under
`Char.toLower`) are classified identically. -/
theorem is_essential_case_invariant (n n' : String)
    (h : n.toList.map Char.toLower = n'.toList.map Char.toLower) :
    is_essential_process n = is_essential_process n' := by
  have hlow : pyLower n = pyLower n' := by
    unfold pyLower
    rw [h]
  unfold is_essential_process
  rw [hlow]

theorem is_essential_case_invariant_witness :
    ("iTerm2".toList.map Char.toLower = "ITERM2".toList.map Char.toLower)
    ∧ is_essential_process "iTerm2" = is_essential_process "ITERM2" :=
  ⟨by decide, is_essential_case_invariant "iTerm2" "ITERM2" (by decide)⟩

/-- C4 counterexample: in the environment where the graceful-quit call
raises, the run on the non-essential "TextEdit" never attempts the forceful
kill and does not increment `quit_count`, refuting the claim as stated. -/
theorem forcekill_skipped_on_graceful_exception :
    is_essential_process "TextEdit" = false
    ∧ ExtAction.force_kill "TextEdit" ∉ (processApp envGr "TextEdit").trace
    ∧ (processApp envGr "TextEdit").dq = 0 := by decide

/-- C4 (amended): for a non-essential application the graceful quit is
always attempted; if the graceful call returns (with any exit code) the
forceful kill is attempted as well; `quit_count` is incremented exactly
when both calls return — it stays unchanged when the kill call raises, and
also when the graceful call raises, in which case the kill is skipped;
`preserved_count` is never incremented for a non-essential application; in
every case the loop continues with the next application. -/
theorem per_app_quit_behavior (env : Env) (app : String)
    (h : is_essential_process app = false) :
    ExtAction.graceful_quit app ∈ (processApp env app).trace
    ∧ (∀ c, env.graceful app = CallOutcome.ret c →
        ExtAction.force_kill app ∈ (processApp env app).trace)
    ∧ (∀ c c', env.graceful app = CallOutcome.ret c →
        env.kill app = CallOutcome.ret c' →
        (processApp env app).dq = 1 ∧ (processApp env app).dp = 0)
    ∧ (∀ c, env.graceful app = CallOutcome.ret c →
        env.kill app = CallOutcome.raise →
        (processApp env app).dq = 0 ∧ (processApp env app).dp = 0)
    ∧ (env.graceful app = CallOutcome.raise →
        ((processApp env app).dq = 0 ∧ (processApp env app).dp = 0)
        ∧ ExtAction.force_kill app ∉ (processApp env app).trace)
    ∧ (∀ (acc : Nat × Nat) (rest : List String),
        List.foldl (quitStep env) acc (app :: rest)
          = List.foldl (quitStep env) (quitStep env acc app) rest) := by
  refine ⟨?_, ?_, ?_, ?_, ?_, fun acc rest => rfl⟩
  · cases hg : env.graceful app with
    | ret c =>
      cases hk : env.kill app with
      | ret c' => simp [processApp, h, hg, hk]
      | raise => simp [processApp, h, hg, hk]
    | raise => simp [processApp, h, hg]
  · intro c hg
    cases hk : env.kill app with
    | ret c' => simp [processApp, h, hg, hk]
    | raise => simp [processApp, h, hg, hk]
  · intro c c' hg hk
    simp [processApp, h, hg, hk]
  · intro c hg hk
    simp [processApp, h, hg, hk]
  · intro hg
    simp [processApp, h, hg]

theorem per_app_quit_behavior_witness :
    is_essential_process "TextEdit" = false
    ∧ ExtAction.graceful_quit "TextEdit" ∈ (processApp envGr "TextEdit").trace :=
  ⟨by decide, (per_app_quit_behavior envGr "TextEdit" (by decide)).1⟩

/-- C5 counterexample: a run over the single non-essential "TextEdit" in
the environment whose graceful-quit call raises tallies (0, 0), so the two
counters do not sum to the length of the enumerated list. -/
theorem tally_not_conserved_on_exception :
    (runTally envGr ["TextEdit"]).1 + (runTally envGr ["TextEdit"]).2
      ≠ (["TextEdit"] : List String).length := by decide

theorem runTally_aux (env : Env) :
    ∀ (apps : List String) (acc : Nat × Nat),
      (∀ app ∈ apps, is_essential_process app = false →
        env.graceful app ≠ CallOutcome.raise
        ∧ env.kill app ≠ CallOutcome.raise) →
      (apps.foldl (quitStep env) acc).1 + (apps.foldl (quitStep env) acc).2
        = acc.1 + acc.2 + apps.length
  | [], acc, _ => by simp
  | a :: rest, acc, h => by
    have hstep : (quitStep env acc a).1 + (quitStep env acc a).2
        = acc.1 + acc.2 + 1 := by
      unfold quitStep
      cases he : is_essential_process a with
      | true => simp [processApp, he]; omega
      | false =>
        obtain ⟨hg, hk⟩ := h a (List.mem_cons_self a rest) he
        cases hgc : env.graceful a with
        | raise => exact absurd hgc hg
        | ret c =>
          cases hkc : env.kill a with
          | raise => exact absurd hkc hk
          | ret c' => simp [processApp, he, hgc, hkc]; omega
    have ih := runTally_aux env rest (quitStep env acc a)
      (fun app ha => h app (List.mem_cons_of_mem _ ha))
    rw [List.foldl_cons, ih, hstep, List.length_cons]
    omega

/-- C5 (amended): the two counters sum to the length of the enumerated
list in every run in which no graceful-quit or forceful-kill call for a
non-essential application raises an exception (the calls may still fail
with non-zero exit codes). -/
theorem tally_conservation (env : Env) (apps : List String)
    (h : ∀ app ∈ apps, is_essential_process app = false →
      env.graceful app ≠ CallOutcome.raise
      ∧ env.kill app ≠ CallOutcome.raise) :
    (runTally env apps).1 + (runTally env apps).2 = apps.length := by
  have haux := runTally_aux env apps (0, 0) h
  simpa [runTally] using haux

theorem tally_conservation_witness :
    (runTally envOk ["Finder", "TextEdit"]).1
      + (runTally envOk ["Finder", "TextEdit"]).2
      = (["Finder", "TextEdit"] : List String).length :=
  tally_conservation envOk ["Finder", "TextEdit"] (by decide)

/-- C6: a failed enumeration — the call raised, or returned a non-zero
exit code — yields the empty application list, and the resulting run
tallies (0, 0). -/
theorem failed_enumeration_tally (env : Env)
    (h : env.enumerate = EnumResult.raise
      ∨ ∃ code stdout, env.enumerate = EnumResult.ret code stdout ∧ code ≠ 0) :
    get_running_applications env.enumerate = []
    ∧ force_quit_run env = (0, 0) := by
  have hempty : get_running_applications env.enumerate = [] := by
    rcases h with h | ⟨code, stdout, h, hc⟩
    · rw [h]
      rfl
    · rw [h]
      simp [get_running_applications, hc]
  refine ⟨hempty, ?_⟩
  unfold force_quit_run
  rw [hempty]
  rfl

theorem failed_enumeration_tally_witness :
    get_running_applications envFail.enumerate = []
    ∧ force_quit_run envFail = (0, 0) :=
  failed_enumeration_tally envFail
    (Or.inr ⟨1, "\x7bFinder\x7d", rfl, by decide⟩)

/-- C7 counterexample: with the exact enumerated list of the claim but an
environment whose graceful-quit calls raise, the run tallies (0, 2) rather
than (1, 2). -/
theorem example_tally_counterexample :
    runTally envGr ["Finder", "TextEdit", "kernel_task"] = (0, 2)
    ∧ runTally envGr ["Finder", "TextEdit", "kernel_task"] ≠ (1, 2) := by
  decide

/-- C7 (amended): for the enumerated list ["Finder", "TextEdit",
"kernel_task"], provided the graceful-quit and forceful-kill calls for
"TextEdit" return rather than raise, the tally is exactly (1, 2): Finder
and kernel_task are preserved as essential and TextEdit is quit. -/
theorem example_list_tally (env : Env)
    (hg : env.graceful "TextEdit" ≠ CallOutcome.raise)
    (hk : env.kill "TextEdit" ≠ CallOutcome.raise) :
    runTally env ["Finder", "TextEdit", "kernel_task"] = (1, 2) := by
  have h1 : is_essential_process "Finder" = true := by decide
  have h2 : is_essential_process "TextEdit" = false := by decide
  have h3 : is_essential_process "kernel_task" = true := by decide
  cases hgc : env.graceful "TextEdit" with
  | raise => exact absurd hgc hg
  | ret c =>
    cases hkc : env.kill "TextEdit" with
    | raise => exact absurd hkc hk
    | ret c' =>
      simp [runTally, quitStep, processApp, hgc, hkc, h1, h2, h3]

theorem example_list_tally_witness :
    runTally envOk ["Finder", "TextEdit", "kernel_task"] = (1, 2) :=
  example_list_tally envOk (by decide) (by decide)

/-- C8: whatever the environment, the user's confirmation answer and the
set of statements that raise unexpected exceptions, the trigger button is
back in state `normal` after `force_quit_applications` returns; and
whenever the `try` body raises, the error dialog is shown. -/
theorem button_always_reenabled (env : Env) (confirm : Bool)
    (raises : RunStep → Bool) :
    (force_quit_applications env confirm raises initGui).1.button
      = BtnState.normal
    ∧ (∀ s, try_body env confirm raises initGui = Except.error s →
        (force_quit_applications env confirm raises initGui).1.errorShown
          = true) := by
  constructor
  · unfold force_quit_applications try_body
    by_cases h1 : raises RunStep.askConfirm = true <;>
      by_cases h2 : confirm = false <;>
        by_cases h3 : raises RunStep.disableBtn = true <;>
          by_cases h4 : raises RunStep.updateRoot = true <;>
            by_cases h5 : raises RunStep.enableBtn = true <;>
              by_cases h6 : raises RunStep.showInfo = true <;>
                simp [h1, h2, h3, h4, h5, h6, handle_error, initGui]
  · intro s hs
    unfold force_quit_applications
    rw [hs]
    simp [handle_error]

theorem button_always_reenabled_witness :
    try_body envOk true (fun _ => true) initGui = Except.error initGui
    ∧ (force_quit_applications envOk true (fun _ => true) initGui).1.errorShown
        = true :=
  ⟨rfl, (button_always_reenabled envOk true (fun _ => true)).2 initGui rfl⟩

/-- C10: when the enumeration call succeeds with exit code 0 and its
output, after trimming surrounding whitespace, is non-empty and consists
only of brace characters, the parser returns the one-element list holding
the empty string, and the classifier treats the empty name as quittable. -/
theorem braces_only_output (stdout : String)
    (hne : pyStripWs stdout ≠ "")
    (hbr : ∀ c ∈ (pyStripWs stdout).toList, c = '\x7b' ∨ c = '\x7d') :
    get_running_applications (EnumResult.ret 0 stdout) = [""]
    ∧ is_essential_process "" = false := by
  have hstrip : pyStrip ['\x7b', '\x7d'] (pyStripWs stdout) = "" := by
    unfold pyStrip
    have hall : (pyStripWs stdout).toList.dropWhile
        (fun c => (['\x7b', '\x7d'] : List Char).contains c) = [] := by
      rw [List.dropWhile_eq_nil_iff]
      intro x hx
      rcases hbr x hx with h | h <;> simp [h]
    rw [hall]
    rfl
  constructor
  · simp only [get_running_applications, if_pos rfl]
    rw [if_pos hne, hstrip]
    rfl
  · decide

theorem braces_only_output_witness :
    pyStripWs " \x7b\x7d " ≠ ""
    ∧ get_running_applications (EnumResult.ret 0 " \x7b\x7d ") = [""] :=
  ⟨by decide, (braces_only_output " \x7b\x7d " (by decide) (by decide)).1⟩
